import Mathlib

/-!
Shallow embedding of the bpf-linker C++ stream shims
(src/cpp/pwrite_stream_shim.cpp and src/cpp/bitcode_ir_stream_shim.cpp).

The two shims adapt LLVM raw output streams to Rust callbacks.  Every
callback invocation is recorded as a `CallEvent`; a callback return code
(the C `int` the Rust side would return) is supplied with each modelled
operation, so theorems quantify over every possible sink behaviour.
Machine integers: `pos_` is a `uint64_t`, modelled as `Nat` reduced
modulo `U64 = 2 ^ 64` wherever the C++ code can overflow.
-/

/-- 2 ^ 64, the modulus of the C++ `uint64_t` append-position counter. -/
def U64 : Nat := 2 ^ 64

/-- Which Rust callback an event went to. -/
inductive CbKind
  | write
  | pwrite
  | seek
  | flush
deriving DecidableEq, Repr

/-- One callback invocation: the callback kind, the byte count passed
(0 for seek/flush) and the absolute offset passed (0 for write/flush). -/
structure CallEvent where
  kind : CbKind
  size : Nat
  offset : Nat
deriving DecidableEq, Repr

/-- State of a `RustPwriteStream` (pwrite_stream_shim.cpp, lines 24-98):
which callback pointers are non-null, the tracked append position `pos_`,
and the sticky error flag `had_error_`. -/
structure RustPwriteStream where
  write_cb : Bool
  pwrite_cb : Bool
  seek_cb : Bool
  flush_cb : Bool
  pos : Nat
  had_error : Bool
deriving DecidableEq, Repr

/-- `RustPwriteStream::write_impl` (lines 62-72): no-op when latched or
`Size == 0`; a null write callback latches; otherwise the write callback is
invoked with `rc` as its return code; non-zero latches, zero advances
`pos_` by `Size` (uint64 arithmetic). -/
def RustPwriteStream.write_impl (s : RustPwriteStream) (size : Nat) (rc : Int) :
    RustPwriteStream × List CallEvent :=
  if s.had_error || size == 0 then (s, [])
  else if !s.write_cb then ({ s with had_error := true }, [])
  else if rc != 0 then ({ s with had_error := true }, [⟨CbKind.write, size, 0⟩])
  else ({ s with pos := (s.pos + size) % U64 }, [⟨CbKind.write, size, 0⟩])

/-- `RustPwriteStream::pwrite_impl` (lines 74-83): no-op when latched or
`Size == 0`; a null pwrite callback latches; otherwise the pwrite callback
is invoked; non-zero latches; the append position is never changed. -/
def RustPwriteStream.pwrite_impl (s : RustPwriteStream) (size : Nat) (offset : Nat)
    (rc : Int) : RustPwriteStream × List CallEvent :=
  if s.had_error || size == 0 then (s, [])
  else if !s.pwrite_cb then ({ s with had_error := true }, [])
  else if rc != 0 then ({ s with had_error := true }, [⟨CbKind.pwrite, size, offset⟩])
  else (s, [⟨CbKind.pwrite, size, offset⟩])

/-- `RustPwriteStream::seek_append_pos` (lines 51-57): unconditionally sets
`pos_ = new_pos` and, when a seek callback is present, invokes it and
returns whether it succeeded.  Note: the source neither tests nor sets
`had_error_` here. -/
def RustPwriteStream.seek_append_pos (s : RustPwriteStream) (newPos : Nat) (rc : Int) :
    RustPwriteStream × List CallEvent × Bool :=
  if s.seek_cb then
    ({ s with pos := newPos % U64 }, [⟨CbKind.seek, 0, newPos % U64⟩], rc == 0)
  else ({ s with pos := newPos % U64 }, [], true)

/-- `RustPwriteStream::~RustPwriteStream` (lines 40-47): if not latched and
a flush callback was supplied, invoke it once; non-zero latches. -/
def RustPwriteStream.destructor (s : RustPwriteStream) (flushRc : Int) :
    RustPwriteStream × List CallEvent :=
  if !s.had_error && s.flush_cb then
    if flushRc != 0 then ({ s with had_error := true }, [⟨CbKind.flush, 0, 0⟩])
    else (s, [⟨CbKind.flush, 0, 0⟩])
  else (s, [])

/-- `RustPwriteStream::current_pos` (lines 85-87). -/
def RustPwriteStream.current_pos (s : RustPwriteStream) : Nat := s.pos

/-- One stream call issued by the LLVM backend (`pass.run`) against the
`raw_pwrite_stream` interface: it can only reach `write_impl` and
`pwrite_impl` (`seek_append_pos` is shim-specific and never called by
LLVM).  `rc` is the return code the sink callback would produce. -/
inductive BOp
  | write (size : Nat) (rc : Int)
  | pwrite (size : Nat) (offset : Nat) (rc : Int)
deriving DecidableEq, Repr

/-- One stream call at the full shim interface, including the extra
`seek_append_pos` entry. -/
inductive POp
  | write (size : Nat) (rc : Int)
  | pwrite (size : Nat) (offset : Nat) (rc : Int)
  | seek (newPos : Nat) (rc : Int)
deriving DecidableEq, Repr

/-- Dispatch one backend call to the stream. -/
def RustPwriteStream.stepB (s : RustPwriteStream) : BOp → RustPwriteStream × List CallEvent
  | BOp.write sz rc => s.write_impl sz rc
  | BOp.pwrite sz off rc => s.pwrite_impl sz off rc

/-- Dispatch one full-interface call to the stream (the Bool result of a
seek is dropped; only state and events matter here). -/
def RustPwriteStream.stepP (s : RustPwriteStream) : POp → RustPwriteStream × List CallEvent
  | POp.write sz rc => s.write_impl sz rc
  | POp.pwrite sz off rc => s.pwrite_impl sz off rc
  | POp.seek np rc => ((s.seek_append_pos np rc).1, (s.seek_append_pos np rc).2.1)

/-- Run a sequence of backend calls, accumulating callback events in order. -/
def runB (s : RustPwriteStream) : List BOp → RustPwriteStream × List CallEvent
  | [] => (s, [])
  | op :: rest =>
      ((runB (s.stepB op).1 rest).1, (s.stepB op).2 ++ (runB (s.stepB op).1 rest).2)

/-- Run a sequence of full-interface calls, accumulating callback events. -/
def runP (s : RustPwriteStream) : List POp → RustPwriteStream × List CallEvent
  | [] => (s, [])
  | op :: rest =>
      ((runP (s.stepP op).1 rest).1, (s.stepP op).2 ++ (runP (s.stepP op).1 rest).2)

/-- State of a `RustRawOStream` (bitcode_ir_stream_shim.cpp, lines 17-67). -/
structure RustRawOStream where
  write_cb : Bool
  flush_cb : Bool
  pos : Nat
  had_error : Bool
deriving DecidableEq, Repr

/-- `RustRawOStream::write_impl` (lines 40-56): same contract as the
pwrite-stream forward write. -/
def RustRawOStream.write_impl (t : RustRawOStream) (size : Nat) (rc : Int) :
    RustRawOStream × List CallEvent :=
  if t.had_error || size == 0 then (t, [])
  else if !t.write_cb then ({ t with had_error := true }, [])
  else if rc != 0 then ({ t with had_error := true }, [⟨CbKind.write, size, 0⟩])
  else ({ t with pos := (t.pos + size) % U64 }, [⟨CbKind.write, size, 0⟩])

/-- `RustRawOStream::~RustRawOStream` (lines 26-35): `this->flush()` is a
no-op on an unbuffered stream, then the Rust flush callback is invoked
once when present and not latched; non-zero latches. -/
def RustRawOStream.destructor (t : RustRawOStream) (flushRc : Int) :
    RustRawOStream × List CallEvent :=
  if !t.had_error && t.flush_cb then
    if flushRc != 0 then ({ t with had_error := true }, [⟨CbKind.flush, 0, 0⟩])
    else (t, [⟨CbKind.flush, 0, 0⟩])
  else (t, [])

/-- One forward write issued by `WriteBitcodeToFile` or `Module::print`
against the `raw_ostream` interface. -/
inductive WOp
  | write (size : Nat) (rc : Int)
deriving DecidableEq, Repr

/-- Dispatch one append-only backend call. -/
def RustRawOStream.stepW (t : RustRawOStream) : WOp → RustRawOStream × List CallEvent
  | WOp.write sz rc => t.write_impl sz rc

/-- Run a sequence of append-only backend calls. -/
def runW (t : RustRawOStream) : List WOp → RustRawOStream × List CallEvent
  | [] => (t, [])
  | op :: rest =>
      ((runW (t.stepW op).1 rest).1, (t.stepW op).2 ++ (runW (t.stepW op).1 rest).2)

/-- The three distinct error messages `bpf_linker_emit_to_pwrite_stream`
can store into `*error_message` (as `dup_cstr` of a literal). -/
inductive ErrMsg
  | invalidArgs
  | cantEmitFileType
  | pwriteStreamError
deriving DecidableEq, Repr

/-- Inputs of one call to `bpf_linker_emit_to_pwrite_stream` (lines
140-196): nullness of the handles and callback pointers, whether the
caller passed an `error_message` out-pointer, whether
`addPassesToEmitFile` fails for the requested file type, the stream calls
`pass.run` would issue, and the return code the flush callback would
produce at destruction. -/
structure EmitInput where
  tmNull : Bool
  modNull : Bool
  write_cb : Bool
  pwrite_cb : Bool
  seek_cb : Bool
  flush_cb : Bool
  errPtr : Bool
  unsupported : Bool
  ops : List BOp
  flushRc : Int
deriving DecidableEq, Repr

/-- Observable outcome of one call to `bpf_linker_emit_to_pwrite_stream`:
the C return value, the ordered list of assignments made through
`error_message` (empty when the caller passed null), every callback
invocation in order (destructor flush included), whether
`Mod->setDataLayout` ran, whether the `RustPwriteStream` was constructed,
and the latch value just before, and after, the destructor runs. -/
structure EmitOutput where
  ret : Nat
  msgTrace : List (Option ErrMsg)
  events : List CallEvent
  layoutSet : Bool
  streamConstructed : Bool
  preTeardownLatch : Bool
  finalLatch : Bool
deriving DecidableEq, Repr

/-- The `RustPwriteStream` constructed at line 160 from the call inputs. -/
def initStream (i : EmitInput) : RustPwriteStream :=
  ⟨i.write_cb, i.pwrite_cb, i.seek_cb, i.flush_cb, 0, false⟩

/-- `bpf_linker_emit_to_pwrite_stream` (lines 140-196).  Order in the
source: `*error_message = nullptr` first; validation of TM/Mod/write_cb/
pwrite_cb with early return 1; stream construction; `setDataLayout`;
`addPassesToEmitFile` failure returns 1 with a message (destructor still
flushes on this path); otherwise `pass.run` issues the stream calls,
`os.flush()` is a no-op on the unbuffered stream, the latch is queried to
pick the result, and the destructor (with the Rust-side flush) runs last,
after the result is already fixed. -/
def bpf_linker_emit_to_pwrite_stream (i : EmitInput) : EmitOutput :=
  if i.tmNull || i.modNull || !i.write_cb || !i.pwrite_cb then
    ⟨1, (if i.errPtr then [none, some ErrMsg.invalidArgs] else []),
     [], false, false, false, false⟩
  else if i.unsupported then
    ⟨1, (if i.errPtr then [none, some ErrMsg.cantEmitFileType] else []),
     ((initStream i).destructor i.flushRc).2, true, true,
     (initStream i).had_error, ((initStream i).destructor i.flushRc).1.had_error⟩
  else
    ⟨(if (runB (initStream i) i.ops).1.had_error then 1 else 0),
     (if i.errPtr then
        (if (runB (initStream i) i.ops).1.had_error then
          [none, some ErrMsg.pwriteStreamError]
         else [none])
      else []),
     (runB (initStream i) i.ops).2 ++
       ((runB (initStream i) i.ops).1.destructor i.flushRc).2,
     true, true,
     (runB (initStream i) i.ops).1.had_error,
     ((runB (initStream i) i.ops).1.destructor i.flushRc).1.had_error⟩

/-- Inputs of one call to `bpf_linker_write_bitcode_to_stream` or
`bpf_linker_print_ir_to_stream` (bitcode_ir_stream_shim.cpp): nullness of
the module handle and callback pointers, the forward writes the LLVM
writer would issue, and the flush return code at destruction. -/
structure StreamInput where
  modNull : Bool
  write_cb : Bool
  flush_cb : Bool
  ops : List WOp
  flushRc : Int
deriving DecidableEq, Repr

/-- Observable outcome of one append-only entry point call. -/
structure StreamOutput where
  ret : Nat
  events : List CallEvent
  streamConstructed : Bool
  preTeardownLatch : Bool
  finalLatch : Bool
deriving DecidableEq, Repr

/-- `bpf_linker_write_bitcode_to_stream` (lines 79-92): validation of
Mod/write_cb with early return 1 before any stream exists; otherwise the
stream is constructed, `WriteBitcodeToFile` issues the forward writes,
`os.flush()` is a no-op, the latch picks the result, and the destructor
(Rust flush) runs after the result is fixed. -/
def bpf_linker_write_bitcode_to_stream (i : StreamInput) : StreamOutput :=
  if i.modNull || !i.write_cb then
    ⟨1, [], false, false, false⟩
  else
    ⟨(if (runW ⟨i.write_cb, i.flush_cb, 0, false⟩ i.ops).1.had_error then 1 else 0),
     (runW ⟨i.write_cb, i.flush_cb, 0, false⟩ i.ops).2 ++
       ((runW ⟨i.write_cb, i.flush_cb, 0, false⟩ i.ops).1.destructor i.flushRc).2,
     true,
     (runW ⟨i.write_cb, i.flush_cb, 0, false⟩ i.ops).1.had_error,
     ((runW ⟨i.write_cb, i.flush_cb, 0, false⟩ i.ops).1.destructor i.flushRc).1.had_error⟩

/-- `bpf_linker_print_ir_to_stream` (lines 96-107): identical orchestration
to the bitcode entry point; only the LLVM routine producing the forward
writes differs, which the `ops` input abstracts. -/
def bpf_linker_print_ir_to_stream (i : StreamInput) : StreamOutput :=
  if i.modNull || !i.write_cb then
    ⟨1, [], false, false, false⟩
  else
    ⟨(if (runW ⟨i.write_cb, i.flush_cb, 0, false⟩ i.ops).1.had_error then 1 else 0),
     (runW ⟨i.write_cb, i.flush_cb, 0, false⟩ i.ops).2 ++
       ((runW ⟨i.write_cb, i.flush_cb, 0, false⟩ i.ops).1.destructor i.flushRc).2,
     true,
     (runW ⟨i.write_cb, i.flush_cb, 0, false⟩ i.ops).1.had_error,
     ((runW ⟨i.write_cb, i.flush_cb, 0, false⟩ i.ops).1.destructor i.flushRc).1.had_error⟩

/-- Number of flush-callback invocations in an event list. -/
def countFlush (evs : List CallEvent) : Nat :=
  (evs.filter (fun e => e.kind == CbKind.flush)).length

/-- All write/pwrite calls in a backend call list return 0. -/
def allSuccB : List BOp → Bool
  | [] => true
  | BOp.write _ rc :: rest => (rc == 0) && allSuccB rest
  | BOp.pwrite _ _ rc :: rest => (rc == 0) && allSuccB rest

/-- Sum of the sizes of the forward writes in a backend call list. -/
def writeSizes : List BOp → Nat
  | [] => 0
  | BOp.write sz _ :: rest => sz + writeSizes rest
  | BOp.pwrite _ _ _ :: rest => writeSizes rest

/-- All writes in an append-only call list return 0. -/
def allSuccW : List WOp → Bool
  | [] => true
  | WOp.write _ rc :: rest => (rc == 0) && allSuccW rest

/-- Last assignment made through the error-message pointer, if any. -/
def lastAssign : List (Option ErrMsg) → Option (Option ErrMsg)
  | [] => none
  | [a] => some a
  | _ :: b :: rest => lastAssign (b :: rest)

/-- A pwrite stream holding all four callbacks, with the error latch set. -/
def latchedStream : RustPwriteStream := ⟨true, true, true, true, 0, true⟩

/-- A pwrite stream holding all four callbacks, with the latch clear. -/
def freshFullStream : RustPwriteStream := ⟨true, true, true, true, 0, false⟩

/-- Emission input whose backend succeeds, whose only data callback call
returns 0, with a flush callback supplied that returns non-zero. -/
def flushFailureInput : EmitInput :=
  ⟨false, false, true, true, false, true, true, false, [BOp.write 10 0], 1⟩

/-- Emission input whose backend reports the file type unsupported, with
a flush callback supplied. -/
def unsupportedWithFlushInput : EmitInput :=
  ⟨false, false, true, true, false, true, true, true, [], 0⟩

/-- Emission input with the mandatory pwrite callback missing and every
handle non-null. -/
def missingPwriteInput : EmitInput :=
  ⟨false, false, true, false, false, false, true, false, [], 0⟩

/-- A latched pwrite stream ignores forward writes entirely. -/
theorem write_impl_latched (s : RustPwriteStream) (sz : Nat) (rc : Int)
    (h : s.had_error = true) : s.write_impl sz rc = (s, []) := by
  simp [RustPwriteStream.write_impl, h]

/-- A latched pwrite stream ignores offset writes entirely. -/
theorem pwrite_impl_latched (s : RustPwriteStream) (sz off : Nat) (rc : Int)
    (h : s.had_error = true) : s.pwrite_impl sz off rc = (s, []) := by
  simp [RustPwriteStream.pwrite_impl, h]

/-- A latched pwrite stream does not flush at destruction. -/
theorem destructor_latched (s : RustPwriteStream) (frc : Int)
    (h : s.had_error = true) : s.destructor frc = (s, []) := by
  simp [RustPwriteStream.destructor, h]

/-- A latched raw ostream ignores forward writes entirely. -/
theorem raw_write_impl_latched (t : RustRawOStream) (sz : Nat) (rc : Int)
    (h : t.had_error = true) : t.write_impl sz rc = (t, []) := by
  simp [RustRawOStream.write_impl, h]

/-- A latched raw ostream does not flush at destruction. -/
theorem raw_destructor_latched (t : RustRawOStream) (frc : Int)
    (h : t.had_error = true) : t.destructor frc = (t, []) := by
  simp [RustRawOStream.destructor, h]

/-- Once latched, any further sequence of shim-interface calls leaves the
latch set and produces only seek events. -/
theorem runP_latched (ops : List POp) :
    ∀ s : RustPwriteStream, s.had_error = true →
      (runP s ops).1.had_error = true ∧
      ((runP s ops).2.all fun e => e.kind == CbKind.seek) = true := by
  induction ops with
  | nil => intro s h; simpa [runP]
  | cons op rest ih =>
      intro s h
      cases op with
      | write sz rc =>
          simp only [runP, RustPwriteStream.stepP, write_impl_latched s sz rc h]
          simpa using ih s h
      | pwrite sz off rc =>
          simp only [runP, RustPwriteStream.stepP, pwrite_impl_latched s sz off rc h]
          simpa using ih s h
      | seek np rc =>
          have hstate : (s.stepP (POp.seek np rc)).1 = { s with pos := np % U64 } := by
            simp only [RustPwriteStream.stepP, RustPwriteStream.seek_append_pos]
            by_cases hs : s.seek_cb <;> simp [hs]
          have hev : ((s.stepP (POp.seek np rc)).2.all
              fun e => e.kind == CbKind.seek) = true := by
            simp only [RustPwriteStream.stepP, RustPwriteStream.seek_append_pos]
            by_cases hs : s.seek_cb <;> simp [hs]
          have hih := ih { s with pos := np % U64 } (by simpa using h)
          refine ⟨?_, ?_⟩
          · simpa only [runP, hstate] using hih.1
          · simp only [runP, hstate, List.all_append, Bool.and_eq_true]
            refine ⟨by simpa using hev, by simpa using hih.2⟩

/-- Backend calls only ever produce write and pwrite events. -/
theorem runB_events_data (ops : List BOp) :
    ∀ s : RustPwriteStream,
      ((runB s ops).2.all fun e =>
        e.kind == CbKind.write || e.kind == CbKind.pwrite) = true := by
  induction ops with
  | nil => intro s; simp [runB]
  | cons op rest ih =>
      intro s
      cases op with
      | write sz rc =>
          simp only [runB, RustPwriteStream.stepB, RustPwriteStream.write_impl]
          by_cases h1 : (s.had_error || sz == 0) = true
          · simp [h1, ih]
          · by_cases h2 : s.write_cb
            · by_cases h3 : (rc != 0) = true
              · simp [h1, h2, h3, ih]
              · simp [h1, h2, h3, ih]
            · simp [h1, h2, ih]
      | pwrite sz off rc =>
          simp only [runB, RustPwriteStream.stepB, RustPwriteStream.pwrite_impl]
          by_cases h1 : (s.had_error || sz == 0) = true
          · simp [h1, ih]
          · by_cases h2 : s.pwrite_cb
            · by_cases h3 : (rc != 0) = true
              · simp [h1, h2, h3, ih]
              · simp [h1, h2, h3, ih]
            · simp [h1, h2, ih]

/-- Append-only backend calls only ever produce write events. -/
theorem runW_events_write (ops : List WOp) :
    ∀ t : RustRawOStream,
      ((runW t ops).2.all fun e => e.kind == CbKind.write) = true := by
  induction ops with
  | nil => intro t; simp [runW]
  | cons op rest ih =>
      intro t
      cases op with
      | write sz rc =>
          simp only [runW, RustRawOStream.stepW, RustRawOStream.write_impl]
          by_cases h1 : (t.had_error || sz == 0) = true
          · simp [h1, ih]
          · by_cases h2 : t.write_cb
            · by_cases h3 : (rc != 0) = true
              · simp [h1, h2, h3, ih]
              · simp [h1, h2, h3, ih]
            · simp [h1, h2, ih]

/-- countFlush distributes over append. -/
theorem countFlush_append (a b : List CallEvent) :
    countFlush (a ++ b) = countFlush a + countFlush b := by
  simp [countFlush, List.filter_append]

/-- An event list made of write/pwrite events has no flush events. -/
theorem countFlush_of_data (evs : List CallEvent)
    (h : (evs.all fun e => e.kind == CbKind.write || e.kind == CbKind.pwrite) = true) :
    countFlush evs = 0 := by
  induction evs with
  | nil => simp [countFlush]
  | cons e rest ih =>
      simp only [List.all_cons, Bool.and_eq_true] at h
      have he : (e.kind == CbKind.flush) = false := by
        rcases Bool.or_eq_true_iff.mp h.1 with h1 | h1
        · simp [beq_iff_eq.mp h1]
        · simp [beq_iff_eq.mp h1]
      simpa [countFlush, List.filter, he] using ih h.2

/-- An event list made of write events has no flush events. -/
theorem countFlush_of_writes (evs : List CallEvent)
    (h : (evs.all fun e => e.kind == CbKind.write) = true) :
    countFlush evs = 0 := by
  apply countFlush_of_data
  induction evs with
  | nil => simp
  | cons e rest ih =>
      simp only [List.all_cons, Bool.and_eq_true] at h ⊢
      exact ⟨Bool.or_eq_true_iff.mpr (Or.inl h.1), ih h.2⟩

/-- Flush count of the pwrite-stream destructor events. -/
theorem countFlush_destructor (s : RustPwriteStream) (frc : Int) :
    countFlush (s.destructor frc).2 =
      (if (!s.had_error && s.flush_cb) = true then 1 else 0) := by
  by_cases h : (!s.had_error && s.flush_cb) = true
  · by_cases h2 : (frc != 0) = true
    · simp [RustPwriteStream.destructor, h, h2, countFlush]
    · simp [RustPwriteStream.destructor, h, h2, countFlush]
  · simp [RustPwriteStream.destructor, h, countFlush]

/-- Flush count of the raw-ostream destructor events. -/
theorem countFlush_raw_destructor (t : RustRawOStream) (frc : Int) :
    countFlush (t.destructor frc).2 =
      (if (!t.had_error && t.flush_cb) = true then 1 else 0) := by
  by_cases h : (!t.had_error && t.flush_cb) = true
  · by_cases h2 : (frc != 0) = true
    · simp [RustRawOStream.destructor, h, h2, countFlush]
    · simp [RustRawOStream.destructor, h, h2, countFlush]
  · simp [RustRawOStream.destructor, h, countFlush]

/-- Running backend calls that all return 0 on an unlatched stream with
both data callbacks present only advances the append position, by the sum
of the forward-write sizes (uint64 arithmetic); the latch stays clear and
every other field is untouched. -/
theorem runB_success (ops : List BOp) :
    ∀ s : RustPwriteStream, s.had_error = false → s.write_cb = true →
      s.pwrite_cb = true → s.pos < U64 → allSuccB ops = true →
      (runB s ops).1 = { s with pos := (s.pos + writeSizes ops) % U64 } := by
  induction ops with
  | nil =>
      intro s he hw hp hlt _
      simp [runB, writeSizes, Nat.mod_eq_of_lt hlt]
  | cons op rest ih =>
      intro s he hw hp hlt hall
      cases op with
      | write sz rc =>
          obtain ⟨hrc, hall'⟩ : rc = 0 ∧ allSuccB rest = true := by
            simpa [allSuccB, Bool.and_eq_true] using hall
          subst hrc
          by_cases hsz : sz = 0
          · have hstep : s.stepB (BOp.write sz 0) = (s, []) := by
              simp [RustPwriteStream.stepB, RustPwriteStream.write_impl, hsz]
            have hih := ih s he hw hp hlt hall'
            simp only [runB, hstep]
            rw [hih]
            simp [writeSizes, hsz]
          · have hstep : s.stepB (BOp.write sz 0) =
                ({ s with pos := (s.pos + sz) % U64 }, [⟨CbKind.write, sz, 0⟩]) := by
              simp [RustPwriteStream.stepB, RustPwriteStream.write_impl, he, hw, hsz]
            have hlt' : (s.pos + sz) % U64 < U64 := Nat.mod_lt _ (by decide)
            have hih := ih { s with pos := (s.pos + sz) % U64 }
              (by simpa using he) (by simpa using hw) (by simpa using hp)
              (by simpa using hlt') hall'
            simp only [runB, hstep]
            rw [hih]
            simp only [RustPwriteStream.mk.injEq, writeSizes, and_true, true_and]
            rw [Nat.mod_add_mod, Nat.add_assoc]
      | pwrite sz off rc =>
          obtain ⟨hrc, hall'⟩ : rc = 0 ∧ allSuccB rest = true := by
            simpa [allSuccB, Bool.and_eq_true] using hall
          subst hrc
          have hstep : (s.stepB (BOp.pwrite sz off 0)).1 = s := by
            by_cases hsz : sz = 0
            · simp [RustPwriteStream.stepB, RustPwriteStream.pwrite_impl, hsz]
            · simp [RustPwriteStream.stepB, RustPwriteStream.pwrite_impl, he, hp, hsz]
          have hih := ih s he hw hp hlt hall'
          simp only [runB, hstep]
          rw [hih]
          simp [writeSizes]

/-- One backend call never changes which callbacks the stream holds. -/
theorem stepB_preserves_cbs (s : RustPwriteStream) (op : BOp) :
    (s.stepB op).1.write_cb = s.write_cb ∧ (s.stepB op).1.pwrite_cb = s.pwrite_cb ∧
    (s.stepB op).1.seek_cb = s.seek_cb ∧ (s.stepB op).1.flush_cb = s.flush_cb := by
  cases op with
  | write sz rc =>
      simp only [RustPwriteStream.stepB, RustPwriteStream.write_impl]
      split
      · simp
      · split
        · simp
        · split <;> simp
  | pwrite sz off rc =>
      simp only [RustPwriteStream.stepB, RustPwriteStream.pwrite_impl]
      split
      · simp
      · split
        · simp
        · split <;> simp

/-- A backend call sequence never changes which callbacks the stream holds. -/
theorem runB_preserves_cbs (ops : List BOp) :
    ∀ s : RustPwriteStream,
      (runB s ops).1.write_cb = s.write_cb ∧
      (runB s ops).1.pwrite_cb = s.pwrite_cb ∧
      (runB s ops).1.seek_cb = s.seek_cb ∧
      (runB s ops).1.flush_cb = s.flush_cb := by
  induction ops with
  | nil => intro s; simp [runB]
  | cons op rest ih =>
      intro s
      have h1 := stepB_preserves_cbs s op
      have h2 := ih (s.stepB op).1
      simp only [runB]
      exact ⟨h2.1.trans h1.1, h2.2.1.trans h1.2.1,
             h2.2.2.1.trans h1.2.2.1, h2.2.2.2.trans h1.2.2.2⟩

/-- One append-only call never changes which callbacks the stream holds. -/
theorem stepW_preserves_cbs (t : RustRawOStream) (op : WOp) :
    (t.stepW op).1.write_cb = t.write_cb ∧ (t.stepW op).1.flush_cb = t.flush_cb := by
  cases op with
  | write sz rc =>
      simp only [RustRawOStream.stepW, RustRawOStream.write_impl]
      split
      · simp
      · split
        · simp
        · split <;> simp

/-- An append-only call sequence never changes the stream callbacks. -/
theorem runW_preserves_cbs (ops : List WOp) :
    ∀ t : RustRawOStream,
      (runW t ops).1.write_cb = t.write_cb ∧
      (runW t ops).1.flush_cb = t.flush_cb := by
  induction ops with
  | nil => intro t; simp [runW]
  | cons op rest ih =>
      intro t
      have h1 := stepW_preserves_cbs t op
      have h2 := ih (t.stepW op).1
      simp only [runW]
      exact ⟨h2.1.trans h1.1, h2.2.trans h1.2⟩

/-- Once latched, the random-access stream ignores every further backend
call: the state is unchanged and no event is produced. -/
theorem runB_latched (ops : List BOp) :
    ∀ s : RustPwriteStream, s.had_error = true → runB s ops = (s, []) := by
  induction ops with
  | nil => intro s h; simp [runB]
  | cons op rest ih =>
      intro s h
      cases op with
      | write sz rc =>
          have hstep : s.stepB (BOp.write sz rc) = (s, []) := by
            simp only [RustPwriteStream.stepB]
            exact write_impl_latched s sz rc h
          simp [runB, hstep, ih s h]
      | pwrite sz off rc =>
          have hstep : s.stepB (BOp.pwrite sz off rc) = (s, []) := by
            simp only [RustPwriteStream.stepB]
            exact pwrite_impl_latched s sz off rc h
          simp [runB, hstep, ih s h]

/-- Once latched, the append-only stream ignores every further write. -/
theorem runW_latched (ops : List WOp) :
    ∀ t : RustRawOStream, t.had_error = true → runW t ops = (t, []) := by
  induction ops with
  | nil => intro t h; simp [runW]
  | cons op rest ih =>
      intro t h
      cases op with
      | write sz rc =>
          have hstep : t.stepW (WOp.write sz rc) = (t, []) := by
            simp only [RustRawOStream.stepW]
            exact raw_write_impl_latched t sz rc h
          simp [runW, hstep, ih t h]

/-- Claim C6 (confirmed): a forward write or offset write of length 0, on
either stream type and in any latch state, invokes no callback and
returns the state unchanged: no position change, no latch change. -/
theorem zero_length_write_is_noop (s : RustPwriteStream) (off : Nat) (rc : Int)
    (t : RustRawOStream) :
    s.write_impl 0 rc = (s, []) ∧
    s.pwrite_impl 0 off rc = (s, []) ∧
    t.write_impl 0 rc = (t, []) := by
  refine ⟨?_, ?_, ?_⟩ <;>
    simp [RustPwriteStream.write_impl, RustPwriteStream.pwrite_impl,
      RustRawOStream.write_impl]

/-- Claim C4 (confirmed): starting from a fresh random-access stream, a
sequence of all-successful forward writes and offset writes (at any
offsets and lengths, interleaved arbitrarily) leaves `current_pos` equal
to the sum of the forward-write sizes alone, provided that sum fits in
the uint64 position counter. -/
theorem position_is_sum_of_forward_write_sizes (sk fl : Bool) (ops : List BOp)
    (hall : allSuccB ops = true) (hsum : writeSizes ops < U64) :
    (runB ⟨true, true, sk, fl, 0, false⟩ ops).1.current_pos = writeSizes ops := by
  have h := runB_success ops ⟨true, true, sk, fl, 0, false⟩ rfl rfl rfl
    (show (0 : Nat) < U64 by decide) hall
  rw [RustPwriteStream.current_pos, h]
  simpa using Nat.mod_eq_of_lt hsum

/-- Witness for C4: writes of 10 and 20 bytes with an interleaved offset
write of 4 bytes at offset 100, all successful, end at position 30. -/
theorem position_is_sum_of_forward_write_sizes_witness :
    (runB ⟨true, true, false, true, 0, false⟩
      [BOp.write 10 0, BOp.pwrite 4 100 0, BOp.write 20 0]).1.current_pos =
      writeSizes [BOp.write 10 0, BOp.pwrite 4 100 0, BOp.write 20 0] :=
  position_is_sum_of_forward_write_sizes false true
    [BOp.write 10 0, BOp.pwrite 4 100 0, BOp.write 20 0] (by decide) (by decide)

/-- Claim C1 (counterexample): the claim says a latched instance never
invokes any callback again, reposition included; but on a latched stream
`seek_append_pos` still invokes the seek callback. -/
theorem latched_reposition_still_invokes_callback :
    latchedStream.had_error = true ∧
    (latchedStream.seek_append_pos 5 0).2.1 = [⟨CbKind.seek, 0, 5⟩] := by
  decide

/-- Claim C1 (amended): once the latch is set it never clears and no
further forward write, offset write, or flush reaches its callback: any
further call sequence on the random-access stream produces only seek
events (the reposition operation, which the amendment excludes, still
notifies the seek callback), the destructor invokes nothing, and the
append-only stream invokes nothing at all. -/
theorem latch_silences_write_pwrite_flush (s : RustPwriteStream)
    (ops : List POp) (frc : Int) (t : RustRawOStream) (wops : List WOp)
    (hs : s.had_error = true) (ht : t.had_error = true) :
    (runP s ops).1.had_error = true ∧
    ((runP s ops).2.all fun e => e.kind == CbKind.seek) = true ∧
    ((runP s ops).1.destructor frc).2 = [] ∧
    runW t wops = (t, []) ∧
    (t.destructor frc).2 = [] := by
  have h := runP_latched ops s hs
  refine ⟨h.1, h.2, ?_, runW_latched wops t ht, ?_⟩
  · exact congrArg Prod.snd (destructor_latched _ frc h.1)
  · exact congrArg Prod.snd (raw_destructor_latched t frc ht)

/-- Witness for C1 (amended), on latched streams with all callbacks:
three further calls produce only a seek notification and no flush. -/
theorem latch_silences_write_pwrite_flush_witness :
    (runP latchedStream [POp.write 3 0, POp.seek 9 0, POp.pwrite 2 5 0]).1.had_error
        = true ∧
    ((runP latchedStream [POp.write 3 0, POp.seek 9 0, POp.pwrite 2 5 0]).2.all
        fun e => e.kind == CbKind.seek) = true ∧
    ((runP latchedStream
        [POp.write 3 0, POp.seek 9 0, POp.pwrite 2 5 0]).1.destructor 0).2 = [] ∧
    runW ⟨true, true, 0, true⟩ [WOp.write 2 0] = (⟨true, true, 0, true⟩, []) ∧
    ((⟨true, true, 0, true⟩ : RustRawOStream).destructor 0).2 = [] :=
  latch_silences_write_pwrite_flush latchedStream
    [POp.write 3 0, POp.seek 9 0, POp.pwrite 2 5 0] 0 ⟨true, true, 0, true⟩
    [WOp.write 2 0] (by decide) (by decide)

/-- Claim C7 (counterexample): the claim says any callback returning
non-zero sets the latch and silences later callbacks; but when the seek
callback returns non-zero the failure is only reported through the Bool
result of `seek_append_pos`: the latch stays clear and a subsequent
forward write still invokes the write callback. -/
theorem seek_failure_does_not_latch :
    (freshFullStream.seek_append_pos 7 1).2.2 = false ∧
    (freshFullStream.seek_append_pos 7 1).2.1 = [⟨CbKind.seek, 0, 7⟩] ∧
    (freshFullStream.seek_append_pos 7 1).1.had_error = false ∧
    ((freshFullStream.seek_append_pos 7 1).1.write_impl 3 0).2 =
      [⟨CbKind.write, 3, 0⟩] := by
  decide

/-- Claim C7 (amended): whenever the write, offset-write, or flush
callback is actually invoked and returns non-zero, the latch becomes
set.  Once latched, the stream silences write, offset-write, and flush,
and the whole remainder of the backend run is a no-op, so a write or
offset-write failure during emission is still latched when the
orchestrator queries the latch; on runs that reach the backend, the
entry point reports failure exactly when the latch is set at that query,
made just before teardown.  Consequently a flush failure, which latches
only at teardown, is not reflected in the reported result, and the seek
callback, which the amendment also excludes, reports its failure only
through the Bool result of `seek_append_pos` and never sets the latch. -/
theorem nonzero_callback_latches (s : RustPwriteStream) (sz off : Nat)
    (rc : Int) (ops : List BOp) (i : EmitInput) (hrc : rc ≠ 0) :
    ((s.write_impl sz rc).2 ≠ [] → (s.write_impl sz rc).1.had_error = true) ∧
    ((s.pwrite_impl sz off rc).2 ≠ [] → (s.pwrite_impl sz off rc).1.had_error = true) ∧
    ((s.destructor rc).2 ≠ [] → (s.destructor rc).1.had_error = true) ∧
    (s.had_error = true →
      (s.write_impl sz rc).2 = [] ∧ (s.pwrite_impl sz off rc).2 = [] ∧
      (s.destructor rc).2 = [] ∧ runB s ops = (s, [])) ∧
    ((bpf_linker_emit_to_pwrite_stream i).preTeardownLatch = true →
      (bpf_linker_emit_to_pwrite_stream i).ret = 1) ∧
    ((i.tmNull || i.modNull || !i.write_cb || !i.pwrite_cb) = false →
      i.unsupported = false →
      ((bpf_linker_emit_to_pwrite_stream i).ret = 1 ↔
        (bpf_linker_emit_to_pwrite_stream i).preTeardownLatch = true)) := by
  have h3 : (rc != 0) = true := by simpa using hrc
  refine ⟨?_, ?_, ?_, ?_, ?_, ?_⟩
  · by_cases h1 : (s.had_error || sz == 0) = true
    · simp [RustPwriteStream.write_impl, h1]
    · by_cases h2 : s.write_cb
      · simp [RustPwriteStream.write_impl, h1, h2, h3]
      · simp [RustPwriteStream.write_impl, h1, h2]
  · by_cases h1 : (s.had_error || sz == 0) = true
    · simp [RustPwriteStream.pwrite_impl, h1]
    · by_cases h2 : s.pwrite_cb
      · simp [RustPwriteStream.pwrite_impl, h1, h2, h3]
      · simp [RustPwriteStream.pwrite_impl, h1, h2]
  · by_cases h1 : (!s.had_error && s.flush_cb) = true
    · simp [RustPwriteStream.destructor, h1, h3]
    · simp [RustPwriteStream.destructor, h1]
  · intro hs
    exact ⟨congrArg Prod.snd (write_impl_latched s sz rc hs),
      congrArg Prod.snd (pwrite_impl_latched s sz off rc hs),
      congrArg Prod.snd (destructor_latched s rc hs),
      runB_latched ops s hs⟩
  · intro hpre
    cases hv : (i.tmNull || i.modNull || !i.write_cb || !i.pwrite_cb) with
    | true =>
        rw [bpf_linker_emit_to_pwrite_stream, hv] at hpre
        simp at hpre
    | false =>
        cases hu : i.unsupported with
        | true =>
            simp [bpf_linker_emit_to_pwrite_stream, hv, hu]
        | false =>
            simp only [bpf_linker_emit_to_pwrite_stream, hv, hu,
              Bool.false_eq_true, if_false] at hpre
            simp [bpf_linker_emit_to_pwrite_stream, hv, hu, hpre]
  · intro hv hu
    simp only [bpf_linker_emit_to_pwrite_stream, hv, hu, Bool.false_eq_true,
      if_false]
    cases hhe : (runB (initStream i) i.ops).1.had_error <;> simp [hhe]

/-- Witness for C7 (amended): a forward write whose callback returns 1
latches the stream; a latched stream ignores a whole remaining backend
run; an emission whose only write fails reports 1; and at the
flush-failure input the result tracks the pre-teardown latch (both
sides false: the teardown flush failure is not reflected). -/
theorem nonzero_callback_latches_witness :
    (freshFullStream.write_impl 3 1).1.had_error = true ∧
    runB latchedStream [BOp.write 4 0, BOp.pwrite 2 9 0] = (latchedStream, []) ∧
    (bpf_linker_emit_to_pwrite_stream
      ⟨false, false, true, true, false, false, false, false,
        [BOp.write 3 1], 0⟩).ret = 1 ∧
    ((bpf_linker_emit_to_pwrite_stream flushFailureInput).ret = 1 ↔
      (bpf_linker_emit_to_pwrite_stream flushFailureInput).preTeardownLatch = true) :=
  ⟨(nonzero_callback_latches freshFullStream 3 0 1 []
      ⟨false, false, true, true, false, false, false, false, [BOp.write 3 1], 0⟩
      (by decide)).1 (by decide),
   ((nonzero_callback_latches latchedStream 3 0 1 [BOp.write 4 0, BOp.pwrite 2 9 0]
      ⟨false, false, true, true, false, false, false, false, [BOp.write 3 1], 0⟩
      (by decide)).2.2.2.1 (by decide)).2.2.2,
   (nonzero_callback_latches freshFullStream 3 0 1 []
      ⟨false, false, true, true, false, false, false, false, [BOp.write 3 1], 0⟩
      (by decide)).2.2.2.2.1 (by decide),
   (nonzero_callback_latches freshFullStream 3 0 1 [] flushFailureInput
      (by decide)).2.2.2.2.2 (by decide) (by decide)⟩

/-- Claim C3 (confirmed): a null handle or missing mandatory callback
makes each entry point return 1 immediately, with no callback invoked and
no stream constructed; the random-access path requires the write and
pwrite callbacks (plus non-null handles), the append-only paths require
only a non-null module and the write callback, and whenever validation
passes the stream is constructed. -/
theorem missing_callback_is_config_error (i : EmitInput) (j k : StreamInput) :
    ((i.tmNull || i.modNull || !i.write_cb || !i.pwrite_cb) = true →
      (bpf_linker_emit_to_pwrite_stream i).ret = 1 ∧
      (bpf_linker_emit_to_pwrite_stream i).events = [] ∧
      (bpf_linker_emit_to_pwrite_stream i).streamConstructed = false ∧
      (bpf_linker_emit_to_pwrite_stream i).msgTrace =
        (if i.errPtr then [none, some ErrMsg.invalidArgs] else [])) ∧
    ((i.tmNull || i.modNull || !i.write_cb || !i.pwrite_cb) = false →
      (bpf_linker_emit_to_pwrite_stream i).streamConstructed = true) ∧
    ((j.modNull || !j.write_cb) = true →
      bpf_linker_write_bitcode_to_stream j = ⟨1, [], false, false, false⟩) ∧
    ((j.modNull || !j.write_cb) = false →
      (bpf_linker_write_bitcode_to_stream j).streamConstructed = true) ∧
    ((k.modNull || !k.write_cb) = true →
      bpf_linker_print_ir_to_stream k = ⟨1, [], false, false, false⟩) ∧
    ((k.modNull || !k.write_cb) = false →
      (bpf_linker_print_ir_to_stream k).streamConstructed = true) := by
  refine ⟨?_, ?_, ?_, ?_, ?_, ?_⟩
  · intro hv
    simp [bpf_linker_emit_to_pwrite_stream, hv]
  · intro hv
    cases hu : i.unsupported <;>
      simp [bpf_linker_emit_to_pwrite_stream, hv, hu]
  · intro hv
    simp [bpf_linker_write_bitcode_to_stream, hv]
  · intro hv
    simp [bpf_linker_write_bitcode_to_stream, hv]
  · intro hv
    simp [bpf_linker_print_ir_to_stream, hv]
  · intro hv
    simp [bpf_linker_print_ir_to_stream, hv]

/-- Witness for C3: a missing pwrite callback on the random-access path
is rejected with no events and no stream, while the append-only path with
only a write callback (no flush) constructs its stream. -/
theorem missing_callback_is_config_error_witness :
    ((bpf_linker_emit_to_pwrite_stream missingPwriteInput).ret = 1 ∧
      (bpf_linker_emit_to_pwrite_stream missingPwriteInput).events = [] ∧
      (bpf_linker_emit_to_pwrite_stream missingPwriteInput).streamConstructed = false ∧
      (bpf_linker_emit_to_pwrite_stream missingPwriteInput).msgTrace =
        (if missingPwriteInput.errPtr then [none, some ErrMsg.invalidArgs] else [])) ∧
    (bpf_linker_write_bitcode_to_stream ⟨false, true, false, [], 0⟩).streamConstructed
      = true ∧
    bpf_linker_print_ir_to_stream ⟨true, true, true, [], 0⟩ = ⟨1, [], false, false, false⟩ :=
  ⟨(missing_callback_is_config_error missingPwriteInput ⟨false, true, false, [], 0⟩
      ⟨true, true, true, [], 0⟩).1 (by decide),
   (missing_callback_is_config_error missingPwriteInput ⟨false, true, false, [], 0⟩
      ⟨true, true, true, [], 0⟩).2.2.2.1 (by decide),
   (missing_callback_is_config_error missingPwriteInput ⟨false, true, false, [], 0⟩
      ⟨true, true, true, [], 0⟩).2.2.2.2.1 (by decide)⟩

/-- Claim C5 (counterexample): the claim says zero callbacks (flush
included) are invoked when the backend rejects the file type; but with a
flush callback supplied the teardown still invokes it once. -/
theorem backend_unsupported_still_flushes :
    (bpf_linker_emit_to_pwrite_stream unsupportedWithFlushInput).ret = 1 ∧
    (bpf_linker_emit_to_pwrite_stream unsupportedWithFlushInput).events =
      [⟨CbKind.flush, 0, 0⟩] := by
  decide

/-- Claim C5 (amended): when the backend reports the requested file type
unsupported (before issuing any writes), the entry point returns 1 with
the descriptive backend message, and no write, pwrite, or seek callback
is invoked; the only possible callback is a single teardown flush, which
happens exactly when a flush callback was supplied. -/
theorem backend_unsupported_is_backend_error (i : EmitInput)
    (hv : (i.tmNull || i.modNull || !i.write_cb || !i.pwrite_cb) = false)
    (hu : i.unsupported = true) :
    (bpf_linker_emit_to_pwrite_stream i).ret = 1 ∧
    (bpf_linker_emit_to_pwrite_stream i).msgTrace =
      (if i.errPtr then [none, some ErrMsg.cantEmitFileType] else []) ∧
    ((bpf_linker_emit_to_pwrite_stream i).events.all
      fun e => e.kind == CbKind.flush) = true ∧
    countFlush (bpf_linker_emit_to_pwrite_stream i).events =
      (if i.flush_cb then 1 else 0) := by
  refine ⟨?_, ?_, ?_, ?_⟩
  · simp [bpf_linker_emit_to_pwrite_stream, hv, hu]
  · simp [bpf_linker_emit_to_pwrite_stream, hv, hu]
  · simp only [bpf_linker_emit_to_pwrite_stream, hv, hu]
    cases hf : i.flush_cb <;>
      cases hr : (i.flushRc != 0) <;>
        simp [RustPwriteStream.destructor, initStream, hf, hr]
  · simp only [bpf_linker_emit_to_pwrite_stream, hv, hu]
    cases hf : i.flush_cb <;>
      cases hr : (i.flushRc != 0) <;>
        simp [RustPwriteStream.destructor, initStream, hf, hr, countFlush]

/-- Witness for C5 (amended): concrete unsupported-file-type run with no
flush callback: result 1, message stored, zero callbacks. -/
theorem backend_unsupported_is_backend_error_witness :
    (bpf_linker_emit_to_pwrite_stream
      ⟨false, false, true, true, true, false, true, true, [], 0⟩).ret = 1 ∧
    (bpf_linker_emit_to_pwrite_stream
      ⟨false, false, true, true, true, false, true, true, [], 0⟩).msgTrace =
      (if (true : Bool) then [none, some ErrMsg.cantEmitFileType] else []) ∧
    ((bpf_linker_emit_to_pwrite_stream
      ⟨false, false, true, true, true, false, true, true, [], 0⟩).events.all
        fun e => e.kind == CbKind.flush) = true ∧
    countFlush (bpf_linker_emit_to_pwrite_stream
      ⟨false, false, true, true, true, false, true, true, [], 0⟩).events =
      (if (false : Bool) then 1 else 0) :=
  backend_unsupported_is_backend_error
    ⟨false, false, true, true, true, false, true, true, [], 0⟩ (by decide) (by decide)

/-- Claim C9 (counterexample): the claim says the entry point always
mutates the module; but a run rejected at validation (here: missing
pwrite callback, all handles non-null) never sets the data layout, so the
module is left unchanged by that operation. -/
theorem config_error_run_leaves_module_unchanged :
    (bpf_linker_emit_to_pwrite_stream missingPwriteInput).ret = 1 ∧
    (bpf_linker_emit_to_pwrite_stream missingPwriteInput).layoutSet = false := by
  decide

/-- Claim C9 (amended): every run that passes argument validation sets
the module data layout to the target machine layout (before the backend
runs), including runs that subsequently fail; runs rejected at validation
leave the module untouched. -/
theorem validated_run_sets_data_layout (i : EmitInput) :
    ((i.tmNull || i.modNull || !i.write_cb || !i.pwrite_cb) = false →
      (bpf_linker_emit_to_pwrite_stream i).layoutSet = true) ∧
    ((i.tmNull || i.modNull || !i.write_cb || !i.pwrite_cb) = true →
      (bpf_linker_emit_to_pwrite_stream i).layoutSet = false) := by
  constructor
  · intro hv
    cases hu : i.unsupported <;>
      simp [bpf_linker_emit_to_pwrite_stream, hv, hu]
  · intro hv
    simp [bpf_linker_emit_to_pwrite_stream, hv]

/-- Witness for C9 (amended): a validated run that fails (unsupported
file type) still set the data layout. -/
theorem validated_run_sets_data_layout_witness :
    (bpf_linker_emit_to_pwrite_stream unsupportedWithFlushInput).layoutSet = true ∧
    (bpf_linker_emit_to_pwrite_stream unsupportedWithFlushInput).ret = 1 :=
  ⟨(validated_run_sets_data_layout unsupportedWithFlushInput).1 (by decide),
   by decide⟩

/-- Claim C10 (confirmed): when the caller passes a non-null
error_message pointer, the first assignment through it is the nullptr
store made at entry (before any validation, callback, or backend work in
the source), and the final value seen by the caller is null exactly when
the entry point returns success. -/
theorem error_message_nulled_at_entry (i : EmitInput) (h : i.errPtr = true) :
    (bpf_linker_emit_to_pwrite_stream i).msgTrace.head? = some none ∧
    ((bpf_linker_emit_to_pwrite_stream i).ret = 0 ↔
      lastAssign (bpf_linker_emit_to_pwrite_stream i).msgTrace = some none) := by
  cases hv : (i.tmNull || i.modNull || !i.write_cb || !i.pwrite_cb) with
  | true =>
      simp [bpf_linker_emit_to_pwrite_stream, hv, h, lastAssign]
  | false =>
      cases hu : i.unsupported with
      | true =>
          simp [bpf_linker_emit_to_pwrite_stream, hv, hu, h, lastAssign]
      | false =>
          cases he : (runB (initStream i) i.ops).1.had_error <;>
            simp [bpf_linker_emit_to_pwrite_stream, hv, hu, h, he, lastAssign]

/-- Witness for C10: a successful concrete emission stores nullptr first
and leaves the message null. -/
theorem error_message_nulled_at_entry_witness :
    (bpf_linker_emit_to_pwrite_stream
      ⟨false, false, true, true, false, false, true, false, [BOp.write 4 0], 0⟩).msgTrace.head?
        = some none ∧
    ((bpf_linker_emit_to_pwrite_stream
      ⟨false, false, true, true, false, false, true, false, [BOp.write 4 0], 0⟩).ret = 0 ↔
      lastAssign (bpf_linker_emit_to_pwrite_stream
        ⟨false, false, true, true, false, false, true, false, [BOp.write 4 0], 0⟩).msgTrace
        = some none) :=
  error_message_nulled_at_entry
    ⟨false, false, true, true, false, false, true, false, [BOp.write 4 0], 0⟩ (by decide)

/-- Claim C2 (counterexample): backend succeeds, the single forward write
returns 0, a flush callback is supplied and returns non-zero; the claim
says the entry point reports failure, but it returns 0 even though the
teardown flush failure has set the latch. -/
theorem flush_failure_not_folded_into_result :
    (bpf_linker_emit_to_pwrite_stream flushFailureInput).finalLatch = true ∧
    (bpf_linker_emit_to_pwrite_stream flushFailureInput).ret = 0 := by
  decide

/-- Claim C2 (amended): under the claim hypotheses (validation passes,
backend supported, every data callback returns 0, flush supplied and
returning non-zero) the flush callback is invoked exactly once and its
failure sets the latch at teardown; but the orchestrator queries the
latch before the destructor runs, so it returns 0 (success) with a null
error message: the flush failure is not folded into the final result. -/
theorem flush_failure_latches_after_result (i : EmitInput)
    (hv : (i.tmNull || i.modNull || !i.write_cb || !i.pwrite_cb) = false)
    (hu : i.unsupported = false)
    (hall : allSuccB i.ops = true)
    (hf : i.flush_cb = true) (hr : i.flushRc ≠ 0) :
    (bpf_linker_emit_to_pwrite_stream i).preTeardownLatch = false ∧
    countFlush (bpf_linker_emit_to_pwrite_stream i).events = 1 ∧
    (bpf_linker_emit_to_pwrite_stream i).finalLatch = true ∧
    (bpf_linker_emit_to_pwrite_stream i).ret = 0 ∧
    lastAssign (bpf_linker_emit_to_pwrite_stream i).msgTrace =
      (if i.errPtr then some none else none) := by
  obtain ⟨⟨⟨-, -⟩, hw⟩, hp⟩ :
      ((i.tmNull = false ∧ i.modNull = false) ∧ i.write_cb = true) ∧
        i.pwrite_cb = true := by
    simpa using hv
  have hrun := runB_success i.ops (initStream i) rfl hw hp
    (show (0 : Nat) < U64 by decide) hall
  have hSe : (runB (initStream i) i.ops).1.had_error = false := by
    rw [hrun]; simp [initStream]
  have hSf : (runB (initStream i) i.ops).1.flush_cb = true := by
    rw [hrun]; simpa [initStream] using hf
  have hrne : (i.flushRc != 0) = true := by simpa using hr
  have hdest : (runB (initStream i) i.ops).1.destructor i.flushRc =
      ({ (runB (initStream i) i.ops).1 with had_error := true },
        [⟨CbKind.flush, 0, 0⟩]) := by
    simp [RustPwriteStream.destructor, hSe, hSf, hrne]
  refine ⟨?_, ?_, ?_, ?_, ?_⟩
  · simp only [bpf_linker_emit_to_pwrite_stream, hv, hu, Bool.false_eq_true,
      if_false]
    exact hSe
  · simp only [bpf_linker_emit_to_pwrite_stream, hv, hu, Bool.false_eq_true,
      if_false]
    rw [countFlush_append,
      countFlush_of_data _ (runB_events_data i.ops (initStream i)), hdest]
    simp [countFlush]
  · simp only [bpf_linker_emit_to_pwrite_stream, hv, hu, Bool.false_eq_true,
      if_false]
    rw [hdest]
  · simp only [bpf_linker_emit_to_pwrite_stream, hv, hu, Bool.false_eq_true,
      if_false]
    simp [hSe]
  · simp only [bpf_linker_emit_to_pwrite_stream, hv, hu, Bool.false_eq_true,
      if_false]
    cases hep : i.errPtr <;> simp [hep, hSe, lastAssign]

/-- Witness for C2 (amended), at the concrete flush-failure input. -/
theorem flush_failure_latches_after_result_witness :
    (bpf_linker_emit_to_pwrite_stream flushFailureInput).preTeardownLatch = false ∧
    countFlush (bpf_linker_emit_to_pwrite_stream flushFailureInput).events = 1 ∧
    (bpf_linker_emit_to_pwrite_stream flushFailureInput).finalLatch = true ∧
    (bpf_linker_emit_to_pwrite_stream flushFailureInput).ret = 0 ∧
    lastAssign (bpf_linker_emit_to_pwrite_stream flushFailureInput).msgTrace =
      (if flushFailureInput.errPtr then some none else none) :=
  flush_failure_latches_after_result flushFailureInput
    (by decide) (by decide) (by decide) (by decide) (by decide)

/-- The two append-only entry points run the same orchestration. -/
theorem print_ir_eq_bitcode (j : StreamInput) :
    bpf_linker_print_ir_to_stream j = bpf_linker_write_bitcode_to_stream j := rfl

/-- Flush-count behaviour of one random-access emission. -/
theorem emit_flush_once (i : EmitInput) :
    countFlush (bpf_linker_emit_to_pwrite_stream i).events ≤ 1 ∧
    ((bpf_linker_emit_to_pwrite_stream i).streamConstructed = true →
      i.flush_cb = true →
      countFlush (bpf_linker_emit_to_pwrite_stream i).events =
        (if (bpf_linker_emit_to_pwrite_stream i).preTeardownLatch then 0 else 1)) := by
  cases hv : (i.tmNull || i.modNull || !i.write_cb || !i.pwrite_cb) with
  | true =>
      constructor
      · simp [bpf_linker_emit_to_pwrite_stream, hv, countFlush]
      · intro hc
        simp [bpf_linker_emit_to_pwrite_stream, hv] at hc
  | false =>
      cases hu : i.unsupported with
      | true =>
          have hcnt : countFlush (bpf_linker_emit_to_pwrite_stream i).events =
              (if i.flush_cb then 1 else 0) := by
            simp only [bpf_linker_emit_to_pwrite_stream, hv, hu,
              Bool.false_eq_true, if_false, if_true]
            rw [countFlush_destructor]
            simp [initStream]
          constructor
          · rw [hcnt]; split <;> simp
          · intro _ hf
            have hpre : (bpf_linker_emit_to_pwrite_stream i).preTeardownLatch
                = false := by
              simp [bpf_linker_emit_to_pwrite_stream, hv, hu, initStream]
            rw [hcnt, hpre, hf]
            simp
      | false =>
          have hcnt : countFlush (bpf_linker_emit_to_pwrite_stream i).events =
              (if (!(runB (initStream i) i.ops).1.had_error && i.flush_cb)
                then 1 else 0) := by
            simp only [bpf_linker_emit_to_pwrite_stream, hv, hu,
              Bool.false_eq_true, if_false]
            rw [countFlush_append,
              countFlush_of_data _ (runB_events_data i.ops (initStream i)),
              countFlush_destructor,
              (runB_preserves_cbs i.ops (initStream i)).2.2.2]
            simp [initStream]
          constructor
          · rw [hcnt]; split <;> simp
          · intro _ hf
            have hpre : (bpf_linker_emit_to_pwrite_stream i).preTeardownLatch =
                (runB (initStream i) i.ops).1.had_error := by
              simp [bpf_linker_emit_to_pwrite_stream, hv, hu]
            rw [hcnt, hpre, hf]
            cases hhe : (runB (initStream i) i.ops).1.had_error <;> simp [hhe]

/-- Flush-count behaviour of one append-only emission. -/
theorem stream_flush_once (j : StreamInput) :
    countFlush (bpf_linker_write_bitcode_to_stream j).events ≤ 1 ∧
    ((bpf_linker_write_bitcode_to_stream j).streamConstructed = true →
      j.flush_cb = true →
      countFlush (bpf_linker_write_bitcode_to_stream j).events =
        (if (bpf_linker_write_bitcode_to_stream j).preTeardownLatch
          then 0 else 1)) := by
  cases hv : (j.modNull || !j.write_cb) with
  | true =>
      constructor
      · simp [bpf_linker_write_bitcode_to_stream, hv, countFlush]
      · intro hc
        simp [bpf_linker_write_bitcode_to_stream, hv] at hc
  | false =>
      have hcnt : countFlush (bpf_linker_write_bitcode_to_stream j).events =
          (if (!(runW ⟨j.write_cb, j.flush_cb, 0, false⟩ j.ops).1.had_error &&
              j.flush_cb) then 1 else 0) := by
        simp only [bpf_linker_write_bitcode_to_stream, hv,
          Bool.false_eq_true, if_false]
        rw [countFlush_append,
          countFlush_of_writes _
            (runW_events_write j.ops ⟨j.write_cb, j.flush_cb, 0, false⟩),
          countFlush_raw_destructor,
          (runW_preserves_cbs j.ops ⟨j.write_cb, j.flush_cb, 0, false⟩).2]
        simp
      constructor
      · rw [hcnt]; split <;> simp
      · intro _ hf
        have hpre : (bpf_linker_write_bitcode_to_stream j).preTeardownLatch =
            (runW ⟨j.write_cb, j.flush_cb, 0, false⟩ j.ops).1.had_error := by
          simp [bpf_linker_write_bitcode_to_stream, hv]
        rw [hcnt, hpre]
        cases hhe : (runW ⟨j.write_cb, j.flush_cb, 0, false⟩ j.ops).1.had_error <;>
          simp [hhe, hf]

/-- Claim C8 (confirmed): in every operation of the three entry points
the flush callback is invoked at most once; when the stream was
constructed with a flush callback, it is invoked exactly once if no
failure latched before teardown, and not at all after a prior failure
has latched. -/
theorem flush_invoked_exactly_once (i : EmitInput) (j k : StreamInput) :
    countFlush (bpf_linker_emit_to_pwrite_stream i).events ≤ 1 ∧
    ((bpf_linker_emit_to_pwrite_stream i).streamConstructed = true →
      i.flush_cb = true →
      countFlush (bpf_linker_emit_to_pwrite_stream i).events =
        (if (bpf_linker_emit_to_pwrite_stream i).preTeardownLatch then 0 else 1)) ∧
    countFlush (bpf_linker_write_bitcode_to_stream j).events ≤ 1 ∧
    ((bpf_linker_write_bitcode_to_stream j).streamConstructed = true →
      j.flush_cb = true →
      countFlush (bpf_linker_write_bitcode_to_stream j).events =
        (if (bpf_linker_write_bitcode_to_stream j).preTeardownLatch
          then 0 else 1)) ∧
    countFlush (bpf_linker_print_ir_to_stream k).events ≤ 1 ∧
    ((bpf_linker_print_ir_to_stream k).streamConstructed = true →
      k.flush_cb = true →
      countFlush (bpf_linker_print_ir_to_stream k).events =
        (if (bpf_linker_print_ir_to_stream k).preTeardownLatch
          then 0 else 1)) := by
  have hi := emit_flush_once i
  have hj := stream_flush_once j
  have hk := stream_flush_once k
  rw [print_ir_eq_bitcode]
  exact ⟨hi.1, hi.2, hj.1, hj.2, hk.1, hk.2⟩

/-- Witness for C8: concrete successful runs of the random-access and
bitcode entry points with a flush callback supplied. -/
theorem flush_invoked_exactly_once_witness :
    countFlush (bpf_linker_emit_to_pwrite_stream
      ⟨false, false, true, true, false, true, false, false,
        [BOp.write 5 0], 0⟩).events =
      (if (bpf_linker_emit_to_pwrite_stream
        ⟨false, false, true, true, false, true, false, false,
          [BOp.write 5 0], 0⟩).preTeardownLatch then 0 else 1) ∧
    countFlush (bpf_linker_write_bitcode_to_stream
      ⟨false, true, true, [WOp.write 7 0], 0⟩).events =
      (if (bpf_linker_write_bitcode_to_stream
        ⟨false, true, true, [WOp.write 7 0], 0⟩).preTeardownLatch
        then 0 else 1) :=
  ⟨(flush_invoked_exactly_once
      ⟨false, false, true, true, false, true, false, false, [BOp.write 5 0], 0⟩
      ⟨false, true, true, [WOp.write 7 0], 0⟩
      ⟨false, true, true, [WOp.write 7 0], 0⟩).2.1 (by decide) (by decide),
   (flush_invoked_exactly_once
      ⟨false, false, true, true, false, true, false, false, [BOp.write 5 0], 0⟩
      ⟨false, true, true, [WOp.write 7 0], 0⟩
      ⟨false, true, true, [WOp.write 7 0], 0⟩).2.2.2.1 (by decide) (by decide)⟩
